import Mathlib

/-!
Verification development for the Photobooth layered-composition editor.

Shallow embedding of the layer data model, the pointer-interaction update
rules of the canvas editor, the preview selection-overlay guards, the
operator's layer mutations, the inter-window message validation, and the
debounced worker-compositor scheduling logic.

Numeric convention: JavaScript numbers are embedded as rationals (`ℚ`).
Irrational primitives (`Math.cos`/`Math.sin` of an angle, `Math.hypot`,
canvas text measurement) are carried as explicit parameters of the
embedded functions, together with the algebraic facts about the real
functions that the proofs rely on (e.g. `cos² + sin² = 1`).
-/

namespace Photobooth

/-! ## Layer model (types module, lines 60-110) -/

/-- Photo fit mode: `'cover' | 'contain'`. -/
inductive FitMode where
  | cover
  | contain
deriving DecidableEq, Repr

/-- `Transform`: normalized placement of a photo relative to the canvas. -/
structure Transform where
  x : ℚ
  y : ℚ
  width : ℚ
  height : ℚ
  /-- rotation in degrees -/
  rotation : ℚ
deriving DecidableEq, Repr

/-- `Crop`: pixel-space pan offsets and zoom factor of a photo. -/
structure Crop where
  x : ℚ
  y : ℚ
  scale : ℚ
deriving DecidableEq, Repr

/-- `Photo` layer. -/
structure Photo where
  src : String
  transform : Transform
  crop : Crop
  originalWidth : ℚ
  originalHeight : ℚ
  fit : FitMode
deriving DecidableEq, Repr

/-- `StickerLayer`: all spatial fields normalized to [0,1] relative to the canvas. -/
structure StickerLayer where
  id : String
  src : String
  x : ℚ
  y : ℚ
  width : ℚ
  height : ℚ
  rotation : ℚ
deriving DecidableEq, Repr

/-- `TextLayer`: position normalized, `fontSize` relative to canvas height. -/
structure TextLayer where
  id : String
  text : String
  x : ℚ
  y : ℚ
  fontSize : ℚ
  fontFamily : String
  color : String
  rotation : ℚ
  fontWeight : String
deriving DecidableEq, Repr

/-- A normalized point of a drawing path. -/
structure DrawPoint where
  x : ℚ
  y : ℚ
deriving DecidableEq, Repr

/-- `DrawingPath`: committed freehand stroke. -/
structure DrawingPath where
  id : String
  points : List DrawPoint
  color : String
  /-- stroke width relative to canvas height -/
  width : ℚ
deriving DecidableEq, Repr

/-- `PhotoboothSession` (types module, lines 236-244). -/
structure PhotoboothSession where
  isActive : Bool
  photos : List Photo
  stickers : List StickerLayer
  textLayers : List TextLayer
  drawings : List DrawingPath
  filter : String
  isPaid : Bool
deriving DecidableEq, Repr

/-! ## Trigonometric oracle

The editor evaluates `Math.cos(angle)` / `Math.sin(angle)` with
`angle = rotationDegrees · π / 180`.  Cosine and sine of a rational number
of degrees are irrational in general, so the embedding abstracts the two
evaluations into a `TrigDeg` record; `TrigDeg.Sound` collects the facts
about the real cosine/sine (as functions of degrees) that the proofs use. -/

/-- Degree-based cosine/sine evaluator: `cosd θ` stands for `cos (θ·π/180)`,
`sind θ` for `sin (θ·π/180)`. -/
structure TrigDeg where
  cosd : ℚ → ℚ
  sind : ℚ → ℚ

/-- Facts about real cosine/sine used by the development: the Pythagorean
identity and the values at 0 degrees. -/
def TrigDeg.Sound (t : TrigDeg) : Prop :=
  (∀ θ : ℚ, t.cosd θ ^ 2 + t.sind θ ^ 2 = 1) ∧ t.cosd 0 = 1 ∧ t.sind 0 = 0

/-- An evaluator that is `Sound` (it agrees with real cosine/sine on
rotation 0, the only angle at which concrete witnesses evaluate it). -/
def trivTrig : TrigDeg where
  cosd := fun _ => 1
  sind := fun _ => 0

/-! ## Pointer-gesture update rules (canvas editor `handleMove`, lines 555-664)

Each update is computed from the gesture-start snapshot (`interaction.current.startVal`)
of the manipulated layer, exactly as in the source. -/

/-- `handleMove`, `crop_panning` branch (canvas editor lines 575-595).
`dx`,`dy` is the pointer delta in canvas pixels since gesture start and
`gps` is `globalPhotoScale`.  The source computes
`angle = start.transform.rotation * Math.PI / 180` and then
`localDx = dx·cos(-angle) - dy·sin(-angle)`,
`localDy = dx·sin(-angle) + dy·cos(-angle)`; here `t.cosd (-rotation)` and
`t.sind (-rotation)` stand for those two trigonometric values. -/
def cropPanUpdate (t : TrigDeg) (start : Photo) (dx dy gps : ℚ) : Crop :=
  let angle := start.transform.rotation
  let localDx := dx * t.cosd (-angle) - dy * t.sind (-angle)
  let localDy := dx * t.sind (-angle) + dy * t.cosd (-angle)
  let scaleFactor := 1 / (gps * start.crop.scale)
  { start.crop with
      x := start.crop.x - localDx * scaleFactor
      y := start.crop.y - localDy * scaleFactor }

/-- `handleMove`, `moving_layer` branch for stickers (lines 622-629):
`dx`,`dy` is the pointer delta divided by canvas width/height. -/
def movingUpdateSticker (start : StickerLayer) (dx dy : ℚ) : StickerLayer :=
  { start with x := start.x + dx, y := start.y + dy }

/-- `handleMove`, `moving_layer` branch for text (lines 630-633). -/
def movingUpdateText (start : TextLayer) (dx dy : ℚ) : TextLayer :=
  { start with x := start.x + dx, y := start.y + dy }

/-- `handleMove`, `rotating` branch (lines 597-620): only the rotation field is
replaced by the `atan2`-derived angle `deg` (carried as a parameter, since
`atan2` is irrational). -/
def rotatingUpdateSticker (start : StickerLayer) (deg : ℚ) : StickerLayer :=
  { start with rotation := deg }

/-- `handleMove`, `rotating` branch for text layers. -/
def rotatingUpdateText (start : TextLayer) (deg : ℚ) : TextLayer :=
  { start with rotation := deg }

/-- `handleMove`, `scaling_layer` branch for stickers (lines 635-657).
`currentDist` and `startDist` are the `Math.hypot` distances from the pointer
to the layer center now and at gesture start (carried as parameters, since a
square root of a rational is irrational in general; every value the source
can produce is ≥ 0).  The source guards `startDist || 1`, computes
`scaleFactor = currentDist / startDist`, floors the new width at `0.02`
(2% of canvas) and keeps the aspect ratio `start.width / start.height`. -/
def scalingUpdateSticker (start : StickerLayer) (currentDist startDist : ℚ) : StickerLayer :=
  let startDistOr1 := if startDist = 0 then 1 else startDist
  let scaleFactor := currentDist / startDistOr1
  let aspect := start.width / start.height
  let newW := max 0.02 (start.width * scaleFactor)
  { start with width := newW, height := newW / aspect }

/-- `handleMove`, `scaling_layer` branch for text (lines 658-662): the font
size is scaled by the same distance ratio and floored at `0.02`. -/
def scalingUpdateText (start : TextLayer) (currentDist startDist : ℚ) : TextLayer :=
  let startDistOr1 := if startDist = 0 then 1 else startDist
  let scaleFactor := currentDist / startDistOr1
  let newSize := max 0.02 (start.fontSize * scaleFactor)
  { start with fontSize := newSize }

/-- The photo of the spec's crop-pan example scenario:
`transform = {x:0.5, y:0.5, width:0.4, height:0.4, rotation:0}`,
`crop = {x:0, y:0, scale:1}`. -/
def examplePhoto : Photo where
  src := "photo.png"
  transform := { x := 1/2, y := 1/2, width := 2/5, height := 2/5, rotation := 0 }
  crop := { x := 0, y := 0, scale := 1 }
  originalWidth := 1200
  originalHeight := 800
  fit := .cover

/-- The sticker of the spec's corner-scale example scenario:
`{x:0.5, y:0.5, width:0.2, height:0.2, rotation:0}`. -/
def exampleSticker : StickerLayer where
  id := "s1"
  src := "sticker.png"
  x := 1/2
  y := 1/2
  width := 1/5
  height := 1/5
  rotation := 0

/-- A wide sticker (width 0.08, height 0.02) used to exhibit the scaling
floor acting on width only. -/
def wideSticker : StickerLayer where
  id := "s2"
  src := "wide.png"
  x := 1/2
  y := 1/2
  width := 2/25
  height := 1/50
  rotation := 0

/-! ## Hit testing (canvas editor `getHit`, lines 418-489)

The canvas editor scans text layers in decreasing index order, then stickers,
then photos; for the currently selected layer two handle tests (rotation
handle, and for stickers/text a corner scale handle) precede the rotated
rectangle body test.  `Math.hypot a b < r` is embedded as the equivalent
squared comparison `a² + b² < r²` (equivalent for `r > 0`, and all the
radii are positive multiples of the device pixel ratio).  Canvas text
measurement (`ctx.measureText`) is carried as the parameter `measure`. -/

/-- Editor environment: physical canvas size and device pixel ratio. -/
structure EditorEnv where
  canvasW : ℚ
  canvasH : ℚ
  dpr : ℚ
deriving DecidableEq, Repr

/-- `const ROTATION_HANDLE_OFFSET = 25` (line 35). -/
def ROTATION_HANDLE_OFFSET : ℚ := 25
/-- `const ROTATION_HANDLE_SIZE = 8` (line 36). -/
def ROTATION_HANDLE_SIZE : ℚ := 8
/-- `const SCALE_HANDLE_SIZE = 8` (line 37). -/
def SCALE_HANDLE_SIZE : ℚ := 8

/-- The selectable layer kinds (`selectedLayerType`). -/
inductive LayerKind where
  | photo
  | sticker
  | text
  | drawing
deriving DecidableEq, Repr

/-- Hit kinds returned by `getHit` (field `type` of the hit record). -/
inductive HitKind where
  | rotate
  | scale
  | move
deriving DecidableEq, Repr

/-- The record returned by `getHit`. -/
structure Hit where
  kind : HitKind
  layerKind : LayerKind
  index : ℕ
deriving DecidableEq, Repr

/-- Editor state consumed by `getHit` and the selection-overlay pass: the
transient layer arrays, the active selection and the global photo scale.
`selectedLayerIndex` is an integer because the source uses `-1` for
"no selection". -/
structure EditorState where
  photos : List Photo
  stickers : List StickerLayer
  textLayers : List TextLayer
  selectedLayerKind : LayerKind
  selectedLayerIndex : ℤ
  globalPhotoScale : ℚ

/-- Pointer position rotated into a layer's local frame about center
`(cx, cy)` by `-angle` (the pattern repeated at lines 437-439, 457-459 and
477-479 of the canvas editor). -/
def localPos (t : TrigDeg) (angle cx cy mx my : ℚ) : ℚ × ℚ :=
  ( (mx - cx) * t.cosd (-angle) - (my - cy) * t.sind (-angle)
  , (mx - cx) * t.sind (-angle) + (my - cy) * t.cosd (-angle) )

/-- Body containment test of a text layer (line 446):
`|localX| < w/2 && |localY| < h/2` with `w = measure + 10`, `h = fontSize + 10`. -/
def textBodyContains (t : TrigDeg) (env : EditorEnv) (measure : TextLayer → ℚ)
    (tl : TextLayer) (mx my : ℚ) : Bool :=
  let cx := tl.x * env.canvasW
  let cy := tl.y * env.canvasH
  let fontSize := tl.fontSize * env.canvasH
  let w := measure tl + 10
  let h := fontSize + 10
  let lp := localPos t tl.rotation cx cy mx my
  decide (|lp.1| < w / 2 ∧ |lp.2| < h / 2)

/-- Rotation-handle test of a selected text layer (lines 442-443), with the
`Math.hypot` comparison squared. -/
def textRotHandleHit (t : TrigDeg) (env : EditorEnv)
    (tl : TextLayer) (mx my : ℚ) : Bool :=
  let cx := tl.x * env.canvasW
  let cy := tl.y * env.canvasH
  let fontSize := tl.fontSize * env.canvasH
  let h := fontSize + 10
  let handleY := -(h / 2) - ROTATION_HANDLE_OFFSET * env.dpr
  let lp := localPos t tl.rotation cx cy mx my
  decide (lp.1 ^ 2 + (lp.2 - handleY) ^ 2 < (ROTATION_HANDLE_SIZE * env.dpr * 1.5) ^ 2)

/-- Scale-handle test of a selected text layer (line 444), squared. -/
def textScaleHandleHit (t : TrigDeg) (env : EditorEnv) (measure : TextLayer → ℚ)
    (tl : TextLayer) (mx my : ℚ) : Bool :=
  let cx := tl.x * env.canvasW
  let cy := tl.y * env.canvasH
  let fontSize := tl.fontSize * env.canvasH
  let w := measure tl + 10
  let h := fontSize + 10
  let lp := localPos t tl.rotation cx cy mx my
  decide ((lp.1 - w / 2) ^ 2 + (lp.2 - h / 2) ^ 2 < (SCALE_HANDLE_SIZE * env.dpr * 2) ^ 2)

/-- Body containment test of a sticker (line 466). -/
def stickerBodyContains (t : TrigDeg) (env : EditorEnv)
    (s : StickerLayer) (mx my : ℚ) : Bool :=
  let cx := s.x * env.canvasW
  let cy := s.y * env.canvasH
  let w := s.width * env.canvasW
  let h := s.height * env.canvasH
  let lp := localPos t s.rotation cx cy mx my
  decide (|lp.1| < w / 2 ∧ |lp.2| < h / 2)

/-- Rotation-handle test of a selected sticker (lines 462-463), squared. -/
def stickerRotHandleHit (t : TrigDeg) (env : EditorEnv)
    (s : StickerLayer) (mx my : ℚ) : Bool :=
  let cx := s.x * env.canvasW
  let cy := s.y * env.canvasH
  let h := s.height * env.canvasH
  let handleY := -(h / 2) - 5 - ROTATION_HANDLE_OFFSET * env.dpr
  let lp := localPos t s.rotation cx cy mx my
  decide (lp.1 ^ 2 + (lp.2 - handleY) ^ 2 < (ROTATION_HANDLE_SIZE * env.dpr * 1.5) ^ 2)

/-- Scale-handle test of a selected sticker (line 464), squared. -/
def stickerScaleHandleHit (t : TrigDeg) (env : EditorEnv)
    (s : StickerLayer) (mx my : ℚ) : Bool :=
  let cx := s.x * env.canvasW
  let cy := s.y * env.canvasH
  let w := s.width * env.canvasW
  let h := s.height * env.canvasH
  let lp := localPos t s.rotation cx cy mx my
  decide ((lp.1 - w / 2 - 5) ^ 2 + (lp.2 - h / 2 - 5) ^ 2 < (SCALE_HANDLE_SIZE * env.dpr * 2) ^ 2)

/-- Body containment test of a photo (lines 470-485): the box is the
transform scaled by canvas size and `globalPhotoScale`. -/
def photoBodyContains (t : TrigDeg) (env : EditorEnv) (gps : ℚ)
    (p : Photo) (mx my : ℚ) : Bool :=
  let cx := p.transform.x * env.canvasW
  let cy := p.transform.y * env.canvasH
  let width := p.transform.width * env.canvasW * gps
  let height := p.transform.height * env.canvasH * gps
  let lp := localPos t p.transform.rotation cx cy mx my
  decide (|lp.1| < width / 2 ∧ |lp.2| < height / 2)

/-- Rotation-handle test of a selected photo (lines 482-483), squared. -/
def photoRotHandleHit (t : TrigDeg) (env : EditorEnv) (gps : ℚ)
    (p : Photo) (mx my : ℚ) : Bool :=
  let cx := p.transform.x * env.canvasW
  let cy := p.transform.y * env.canvasH
  let height := p.transform.height * env.canvasH * gps
  let handleCenterY := -(height / 2) - ROTATION_HANDLE_OFFSET * env.dpr
  let lp := localPos t p.transform.rotation cx cy mx my
  decide (lp.1 ^ 2 + (lp.2 - handleCenterY) ^ 2 < (ROTATION_HANDLE_SIZE * env.dpr * 1.5) ^ 2)

/-- One iteration of the text loop of `getHit` (lines 427-447) at index `i`. -/
def textCheckAt (t : TrigDeg) (env : EditorEnv) (measure : TextLayer → ℚ)
    (st : EditorState) (mx my : ℚ) (i : ℕ) : Option Hit :=
  match st.textLayers[i]? with
  | none => none
  | some tl =>
    if st.selectedLayerKind = .text ∧ st.selectedLayerIndex = (i : ℤ) then
      if textRotHandleHit t env tl mx my then some ⟨.rotate, .text, i⟩
      else if textScaleHandleHit t env measure tl mx my then some ⟨.scale, .text, i⟩
      else if textBodyContains t env measure tl mx my then some ⟨.move, .text, i⟩
      else none
    else if textBodyContains t env measure tl mx my then some ⟨.move, .text, i⟩
    else none

/-- One iteration of the sticker loop of `getHit` (lines 450-467) at index `i`. -/
def stickerCheckAt (t : TrigDeg) (env : EditorEnv)
    (st : EditorState) (mx my : ℚ) (i : ℕ) : Option Hit :=
  match st.stickers[i]? with
  | none => none
  | some s =>
    if st.selectedLayerKind = .sticker ∧ st.selectedLayerIndex = (i : ℤ) then
      if stickerRotHandleHit t env s mx my then some ⟨.rotate, .sticker, i⟩
      else if stickerScaleHandleHit t env s mx my then some ⟨.scale, .sticker, i⟩
      else if stickerBodyContains t env s mx my then some ⟨.move, .sticker, i⟩
      else none
    else if stickerBodyContains t env s mx my then some ⟨.move, .sticker, i⟩
    else none

/-- One iteration of the photo loop of `getHit` (lines 470-486) at index `i`. -/
def photoCheckAt (t : TrigDeg) (env : EditorEnv)
    (st : EditorState) (mx my : ℚ) (i : ℕ) : Option Hit :=
  match st.photos[i]? with
  | none => none
  | some p =>
    if st.selectedLayerKind = .photo ∧ st.selectedLayerIndex = (i : ℤ) then
      if photoRotHandleHit t env st.globalPhotoScale p mx my then some ⟨.rotate, .photo, i⟩
      else if photoBodyContains t env st.globalPhotoScale p mx my then some ⟨.move, .photo, i⟩
      else none
    else if photoBodyContains t env st.globalPhotoScale p mx my then some ⟨.move, .photo, i⟩
    else none

/-- A `for (let i = n - 1; i >= 0; i--)` loop returning the first `some`:
checks indices `n-1, n-2, …, 0` in that order. -/
def scanDesc (f : ℕ → Option Hit) : ℕ → Option Hit
  | 0 => none
  | n + 1 =>
    match f n with
    | some h => some h
    | none => scanDesc f n

/-- `getHit` (canvas editor lines 418-489): no hit testing in drawing mode;
otherwise text layers (descending), then stickers, then photos. -/
def getHit (t : TrigDeg) (env : EditorEnv) (measure : TextLayer → ℚ)
    (st : EditorState) (isDrawingMode : Bool) (mx my : ℚ) : Option Hit :=
  if isDrawingMode then none
  else
    match scanDesc (textCheckAt t env measure st mx my) st.textLayers.length with
    | some h => some h
    | none =>
      match scanDesc (stickerCheckAt t env st mx my) st.stickers.length with
      | some h => some h
      | none => scanDesc (photoCheckAt t env st mx my) st.photos.length

/-! ## Preview selection overlays (canvas editor `draw`, section 7, lines 247-335)

The draw routine renders selection affordances (bounding box, rotation
handle, scale handle) only for the active selection; it is suppressed in
drawing mode and guarded by array lookups, so an invalid selection index
renders nothing and the routine completes (the embedding is a total
function).  The overlay output is abstracted to which layer, if any, gets
affordances drawn. -/

/-- JavaScript array indexing `arr[i]` with a possibly negative or
out-of-range index: `undefined` becomes `none`. -/
def jsIndex (l : List α) (i : ℤ) : Option α :=
  if i < 0 then none else l[i.toNat]?

/-- Which layer the selection affordances are drawn for. -/
inductive OverlayTarget where
  | photoSel (index : ℕ)
  | stickerSel (index : ℕ)
  | textSel (index : ℕ)
deriving DecidableEq, Repr

/-- Selection-overlay pass of `draw` (lines 247-335).  The photo branch
(line 252) requires `selectedLayerIndex !== -1` and a successful array
lookup; the sticker/text branch (lines 282-334) computes a width `w`
(initialized to 0) from a successful lookup — `w = width · canvasW` for a
sticker, `w = metrics.width` for text — and draws only `if (w > 0)`.
A `drawing` selection leaves `w = 0`, so nothing is drawn. -/
def selectionOverlay (env : EditorEnv) (measure : TextLayer → ℚ)
    (st : EditorState) (isDrawingMode : Bool) : Option OverlayTarget :=
  if isDrawingMode then none
  else if st.selectedLayerKind = .photo then
    if st.selectedLayerIndex ≠ -1 then
      match jsIndex st.photos st.selectedLayerIndex with
      | some _ => some (.photoSel st.selectedLayerIndex.toNat)
      | none => none
    else none
  else if st.selectedLayerIndex ≠ -1 then
    match st.selectedLayerKind with
    | .sticker =>
      match jsIndex st.stickers st.selectedLayerIndex with
      | some s => if s.width * env.canvasW > 0 then some (.stickerSel st.selectedLayerIndex.toNat) else none
      | none => none
    | .text =>
      match jsIndex st.textLayers st.selectedLayerIndex with
      | some tl => if measure tl > 0 then some (.textSel st.selectedLayerIndex.toNat) else none
      | none => none
    | _ => none
  else none

/-! ## Operator-side layer mutations (app module, lines 1202-1225) -/

/-- Operator app state touched by the layer mutation handlers. -/
structure OperatorState where
  session : PhotoboothSession
  selectedLayerKind : LayerKind
  selectedLayerIndex : ℤ
deriving DecidableEq, Repr

/-- `array.filter((_, i) => i !== index)`: removes the element at `index`. -/
def removeAt (l : List α) (index : ℤ) : List α :=
  (l.enum.filter (fun p => (p.1 : ℤ) ≠ index)).map Prod.snd

/-- `handleDeleteLayer` (app module, lines 1215-1225): removes the selected
sticker or text layer and resets the selection index to `-1`. -/
def handleDeleteLayer (st : OperatorState) : OperatorState :=
  let st1 :=
    if st.selectedLayerKind = .sticker then
      { st with session := { st.session with
          stickers := removeAt st.session.stickers st.selectedLayerIndex } }
    else if st.selectedLayerKind = .text then
      { st with session := { st.session with
          textLayers := removeAt st.session.textLayers st.selectedLayerIndex } }
    else st
  { st1 with selectedLayerIndex := -1 }

/-! ## Text sanitization (`handleUpdateText`, app module lines 1202-1213)

`value.replace(/<[^>]*>/g, '')` removes every leftmost-first match of
`<[^>]*>` — i.e. starting at a `<` that is followed by some `>`, everything
up to and including the first subsequent `>` — and the result is truncated
with `.slice(0, 300)`. -/

mutual

/-- Global replacement of the regex `<[^>]*>` by the empty string: a `<`
with a later `>` opens a match extending to the first subsequent `>` (the
characters in between are skipped by `stripTagsAfterLt`); a `<` with no
later `>` can never start a match and is kept (and then no later character
can start one either, since no `>` remains). -/
def stripTags : List Char → List Char
  | [] => []
  | c :: rest =>
    if c == '<' && rest.contains '>' then stripTagsAfterLt rest
    else c :: stripTags rest

/-- Skips the `[^>]*>` part of a match: drops characters up to and
including the first `>`, then resumes `stripTags`. -/
def stripTagsAfterLt : List Char → List Char
  | [] => []
  | c :: rest => if c == '>' then stripTags rest else stripTagsAfterLt rest

end

/-- The `sanitize` closure of `handleUpdateText` (lines 1205-1208). -/
def sanitize (value : String) : String :=
  ⟨(stripTags value.data).take 300⟩

/-- `Partial<TextLayer>`: fields absent from the update are `none`. -/
structure TextLayerUpdate where
  text : Option String := none
  x : Option ℚ := none
  y : Option ℚ := none
  fontSize : Option ℚ := none
  fontFamily : Option String := none
  color : Option String := none
  rotation : Option ℚ := none
  fontWeight : Option String := none

/-- Object spread `{ ...t, ...u }` of a partial update over a text layer. -/
def applyTextUpdate (t : TextLayer) (u : TextLayerUpdate) : TextLayer where
  id := t.id
  text := u.text.getD t.text
  x := u.x.getD t.x
  y := u.y.getD t.y
  fontSize := u.fontSize.getD t.fontSize
  fontFamily := u.fontFamily.getD t.fontFamily
  color := u.color.getD t.color
  rotation := u.rotation.getD t.rotation
  fontWeight := u.fontWeight.getD t.fontWeight

/-- `handleUpdateText` (app module, lines 1202-1213): sanitizes a string
`text` field of the update, then merges the update into the layer at
`index` (`newTexts[index] = { ...newTexts[index], ...safeUpdates }`,
embedded as a positional list update; the caller always passes an
in-range index). -/
def handleUpdateText (session : PhotoboothSession) (index : ℕ)
    (u : TextLayerUpdate) : PhotoboothSession :=
  let safeUpdates :=
    match u.text with
    | some s => { u with text := some (sanitize s) }
    | none => u
  { session with
      textLayers := session.textLayers.enum.map
        (fun p => if p.1 = index then applyTextUpdate p.2 safeUpdates else p.2) }

/-! ## Inter-window message validation (app module, lines 356-376)

Inbound messages arrive from the broadcast channel as untyped JavaScript
values, so the boundary is embedded over a dynamic value type `JVal`. -/

/-- Dynamic JavaScript values as they occur on the message channel. -/
inductive JVal where
  | jundefined
  | jnull
  | jbool (b : Bool)
  | jnum (q : ℚ)
  | jstr (s : String)
  | jarr (elems : List JVal)
  | jobj (fields : List (String × JVal))

/-- JavaScript truthiness. -/
def JVal.truthy : JVal → Bool
  | .jundefined => false
  | .jnull => false
  | .jbool b => b
  | .jnum q => decide (q ≠ 0)
  | .jstr s => decide (s ≠ "")
  | .jarr _ => true
  | .jobj _ => true

/-- `typeof v === 'object'` (true for objects, arrays and `null`). -/
def JVal.typeofObject : JVal → Bool
  | .jnull => true
  | .jarr _ => true
  | .jobj _ => true
  | _ => false

/-- `typeof v === 'string'`. -/
def JVal.typeofString : JVal → Bool
  | .jstr _ => true
  | _ => false

/-- Property access `v.name` (`undefined` when absent or not an object;
in the validator every access is guarded by an object check). -/
def JVal.field (v : JVal) (name : String) : JVal :=
  match v with
  | .jobj fields => ((fields.find? (fun p => p.1 == name)).map Prod.snd).getD .jundefined
  | _ => .jundefined

/-- Strict string equality `v === 's'`. -/
def JVal.strEq (v : JVal) (s : String) : Bool :=
  match v with
  | .jstr s2 => s2 == s
  | _ => false

/-- The string content of `v`, for positions where the validator has
already established `typeof v === 'string'`. -/
def JVal.strOf : JVal → String
  | .jstr s => s
  | _ => ""

/-- The numeric content of `v` (0 otherwise). -/
def JVal.numOf : JVal → ℚ
  | .jnum q => q
  | _ => 0

/-- The fixed allow-list of guest action types (app module, line 361). -/
def allowedGuestActionTypes : List String :=
  ["GUEST_START", "GUEST_SELECT_LAYOUT", "GUEST_SELECT_FRAME", "GUEST_EMAIL",
   "GUEST_PRINT", "GUEST_ADD_DRAWING", "GUEST_SET_FILTER", "GUEST_PAYMENT_COMPLETE"]

/-- `validateInterWindowMessage` (app module, lines 356-368).  JavaScript's
`msg.payload.email.length` counts UTF-16 code units; the embedding uses
`String.length` (they agree on the concrete inputs considered here). -/
def validateInterWindowMessage (msg : JVal) : Bool :=
  if !msg.truthy || !msg.typeofObject then false
  else
    let guestActionOk :=
      if (msg.field "type").strEq "GUEST_ACTION" then
        let p := msg.field "payload"
        if !p.truthy || !p.typeofObject || !(p.field "type").typeofString then false
        else
          let ptype := (p.field "type").strOf
          if !(allowedGuestActionTypes.contains ptype) then false
          else if ptype == "GUEST_EMAIL"
              && (!(p.field "email").typeofString || decide ((p.field "email").strOf.length > 200)) then false
          else if ptype == "GUEST_SELECT_LAYOUT" && !(p.field "layout").typeofString then false
          else if ptype == "GUEST_SELECT_FRAME" && !(p.field "frameSrc").typeofString then false
          else true
      else true
    guestActionOk
      && ((msg.field "type").strEq "SET_STATE"
          || (msg.field "type").strEq "GET_STATE"
          || (msg.field "type").strEq "GUEST_ACTION")

/-! ## Guest action dispatch (app module, lines 411-501)

Only the state read and written by the dispatcher is modeled; channel
broadcasts (`sendMessage`), printing (`handlePrint`) and the undo history
are side effects outside the canonical state and are not part of the
embedded state.  Structure fields that no embedded handler reads are
omitted. -/

/-- `Placeholder` (types module, lines 50-58; fields unused here omitted). -/
structure Placeholder where
  id : ℚ
  x : ℚ
  y : ℚ
  width : ℚ
  height : ℚ
deriving DecidableEq, Repr

/-- `LayoutOption` (types module, lines 112-120; trimmed to the fields the
dispatcher reads). -/
structure LayoutOption where
  id : String
  placeholders : List Placeholder
deriving DecidableEq, Repr

/-- `FrameLayout` (types module, lines 184-188; trimmed). -/
structure FrameLayout where
  layoutId : String
deriving DecidableEq, Repr

/-- `FrameConfig` (types module, lines 190-196; trimmed). -/
structure FrameConfig where
  id : String
  thumbnailSrc : String
  supportedLayouts : List FrameLayout
  isVisible : Bool
deriving DecidableEq, Repr

/-- `AppStep` (types module, lines 31-36). -/
inductive AppStep where
  | FRAME_UPLOAD
  | TEMPLATE_DESIGN
  | PHOTO_UPLOAD
  | FINALIZE_AND_EXPORT
deriving DecidableEq, Repr

/-- `AppSettings` (types module, lines 246-255; trimmed to the fields the
dispatcher reads or writes). -/
structure AppSettingsModel where
  frameSrc : Option String
  availableFrames : List FrameConfig
  placeholders : List Placeholder
  layoutOptions : List LayoutOption
  pricePerPrint : ℚ
deriving DecidableEq, Repr

/-- `AnalyticsData` (types module, lines 272-278). -/
structure AnalyticsData where
  totalSessions : ℕ
  totalPhotosTaken : ℕ
  totalPrints : ℕ
  emailsCollected : List String
  totalRevenue : ℚ
deriving DecidableEq, Repr

/-- The operator app state read/written by the guest-action dispatcher. -/
structure AppState where
  session : PhotoboothSession
  settings : AppSettingsModel
  analytics : AnalyticsData
  guestLayoutId : Option String
  appStep : AppStep

/-- `applyPresetLayout` (app module, lines 503-510). -/
def applyPresetLayout (st : AppState) (t : String) : AppState :=
  if t == "custom" then st
  else
    match st.settings.layoutOptions.find? (fun l => l.id == t) with
    | some layout => { st with settings := { st.settings with placeholders := layout.placeholders } }
    | none => st

/-- Decode of the duck-typed `action.drawing` payload (the source stores the
received object directly into the session without further checks; the typed
embedding reads its fields, defaulting missing ones). -/
def decodeDrawing (v : JVal) : DrawingPath where
  id := (v.field "id").strOf
  points :=
    match v.field "points" with
    | .jarr elems => elems.map (fun e => ⟨(e.field "x").numOf, (e.field "y").numOf⟩)
    | _ => []
  color := (v.field "color").strOf
  width := (v.field "width").numOf

/-- `handleGuestActionDispatch` (app module, lines 411-501), restricted to
its effect on the canonical state.  The action has already passed
validation. -/
def handleGuestActionDispatch (st : AppState) (action : JVal) : AppState :=
  let atype := (action.field "type").strOf
  if atype == "GUEST_START" then
    { st with
        session := { isActive := true, photos := [], stickers := [], textLayers := [],
                     drawings := [], filter := "", isPaid := false }
        analytics := { st.analytics with totalSessions := st.analytics.totalSessions + 1 } }
  else if atype == "GUEST_SELECT_LAYOUT" then
    let layout := (action.field "layout").strOf
    let st1 := { st with guestLayoutId := some layout }
    let st2 := if layout != "custom" then applyPresetLayout st1 layout else st1
    let compatibleFrames := st2.settings.availableFrames.filter
      (fun f => f.isVisible && f.supportedLayouts.any (fun sl => sl.layoutId == layout))
    if compatibleFrames.length > 0 then st2
    else { st2 with appStep := .PHOTO_UPLOAD }
  else if atype == "GUEST_SELECT_FRAME" then
    let frameSrc := (action.field "frameSrc").strOf
    let st1 :=
      match st.settings.availableFrames.find? (fun f => f.thumbnailSrc == frameSrc) with
      | some selectedFrame =>
        { st with settings := { st.settings with frameSrc := some selectedFrame.thumbnailSrc } }
      | none => { st with settings := { st.settings with frameSrc := some frameSrc } }
    { st1 with appStep := .PHOTO_UPLOAD }
  else if atype == "GUEST_EMAIL" then
    let email := (action.field "email").strOf
    if email ≠ "" && !(st.analytics.emailsCollected.contains email) then
      { st with analytics := { st.analytics with
          emailsCollected := st.analytics.emailsCollected ++ [email] } }
    else st
  else if atype == "GUEST_PRINT" then
    st
  else if atype == "GUEST_ADD_DRAWING" then
    { st with session := { st.session with
        drawings := st.session.drawings ++ [decodeDrawing (action.field "drawing")] } }
  else if atype == "GUEST_SET_FILTER" then
    { st with session := { st.session with filter := (action.field "filter").strOf } }
  else if atype == "GUEST_PAYMENT_COMPLETE" then
    { st with
        session := { st.session with isPaid := true }
        analytics := { st.analytics with
          totalRevenue := st.analytics.totalRevenue + st.settings.pricePerPrint } }
  else st

/-- `handleGuestAction`, the channel message listener (app module, lines
369-375): invalid messages are silently ignored; valid `GUEST_ACTION`
messages are dispatched; other valid messages do not touch the canonical
state. -/
def handleChannelMessage (st : AppState) (msg : JVal) : AppState :=
  if !validateInterWindowMessage msg then st
  else if (msg.field "type").strEq "GUEST_ACTION" then
    handleGuestActionDispatch st (msg.field "payload")
  else st

/-! ## Debounced worker compositor scheduling (app module, lines 870-924)

The composite-request effect re-runs on every session edit.  React first
invokes the cleanup returned by the previous run of the effect — which
clears a not-yet-fired `setTimeout` — and then runs the body, which
early-returns when `workerPendingRef.current` is set and otherwise sets the
flag and schedules a new timeout `DEBOUNCE_MS` later.  When a scheduled
timeout fires it posts one `COMPOSITE` request; a worker `RESULT` message
clears the pending flag.  Times are absolute milliseconds; the single JS
event loop runs a due timeout callback before any later event. -/

/-- `setTimeout(..., 150)` debounce interval (line 922). -/
def DEBOUNCE_MS : ℕ := 150

/-- Scheduling state of the worker-compositor effect. -/
structure CompositorState where
  /-- `workerPendingRef.current` -/
  pending : Bool
  /-- absolute fire time of the armed `setTimeout`, if any -/
  timer : Option ℕ
  /-- number of `COMPOSITE` requests posted to the worker so far -/
  posts : ℕ
deriving DecidableEq, Repr

/-- Initial state: no request pending, no timeout armed (line 226). -/
def initCompositor : CompositorState := ⟨false, none, 0⟩

/-- Runs the timeout callback (lines 900-922) if its due time has been
reached by `now`: one `COMPOSITE` request is posted (`w.postMessage` is
assumed not to throw). -/
def fireIfDue (s : CompositorState) (now : ℕ) : CompositorState :=
  match s.timer with
  | some due => if due ≤ now then { s with timer := none, posts := s.posts + 1 } else s
  | none => s

/-- A session edit at time `now` re-runs the effect (lines 890-924): any
due timeout has already fired; the previous run's cleanup clears a still
armed timeout; then the body early-returns if a request is marked pending
(line 898), else marks pending (line 899) and schedules the debounce
timeout (lines 900-922). -/
def onEdit (s : CompositorState) (now : ℕ) : CompositorState :=
  let s1 := fireIfDue s now
  let s2 := { s1 with timer := none }
  if s2.pending then s2
  else { s2 with pending := true, timer := some (now + DEBOUNCE_MS) }

/-- A worker `RESULT` message at time `now` clears the pending flag
(lines 876-882). -/
def onResult (s : CompositorState) (now : ℕ) : CompositorState :=
  let s1 := fireIfDue s now
  { s1 with pending := false }

/-- Lets a still-armed timeout fire (time running to quiescence). -/
def settleTimers (s : CompositorState) : CompositorState :=
  match s.timer with
  | some _ => { s with timer := none, posts := s.posts + 1 }
  | none => s

/-- Runs a sequence of session edits at the given (nondecreasing) absolute
times with no interleaved worker response, then lets any remaining timeout
fire. -/
def runEdits (times : List ℕ) : CompositorState :=
  settleTimers (times.foldl onEdit initCompositor)

/-! ## Auxiliary predicates and concrete sample inputs -/

/-- `true` iff the character list contains a `<` with some `>` after it —
in particular any substring matching the HTML-tag pattern `<[^>]*>`
requires this. -/
def hasLtThenGt : List Char → Bool
  | [] => false
  | c :: rest => (c == '<' && rest.contains '>') || hasLtThenGt rest

/-- Sample canvas environment: a 1000×1000 physical canvas at `dpr = 1`. -/
def sampleEnv : EditorEnv := ⟨1000, 1000, 1⟩

/-- A constant text-measurement oracle (every string 100 px wide). -/
def constMeasure : TextLayer → ℚ := fun _ => 100

/-- A sample text layer centered on the canvas. -/
def sampleTextA : TextLayer where
  id := "t0"
  text := "hello"
  x := 1/2
  y := 1/2
  fontSize := 1/20
  fontFamily := "Arial"
  color := "#ffffff"
  rotation := 0
  fontWeight := "bold"

/-- A second text layer at the same position (overlapping the first). -/
def sampleTextB : TextLayer := { sampleTextA with id := "t1", text := "world" }

/-- Editor state with two overlapping text layers and nothing selected. -/
def overlappingTextState : EditorState where
  photos := []
  stickers := []
  textLayers := [sampleTextA, sampleTextB]
  selectedLayerKind := .photo
  selectedLayerIndex := -1
  globalPhotoScale := 1

/-- Editor state whose sticker selection index is out of range. -/
def staleSelectionState : EditorState where
  photos := []
  stickers := [exampleSticker]
  textLayers := []
  selectedLayerKind := .sticker
  selectedLayerIndex := 5
  globalPhotoScale := 1

/-- Operator state with one sticker, which is selected. -/
def sampleOpState : OperatorState where
  session :=
    { isActive := true, photos := [], stickers := [exampleSticker], textLayers := [],
      drawings := [], filter := "", isPaid := false }
  selectedLayerKind := .sticker
  selectedLayerIndex := 0

/-- Session holding one text layer. -/
def sampleSession : PhotoboothSession where
  isActive := true
  photos := []
  stickers := []
  textLayers := [sampleTextA]
  drawings := []
  filter := ""
  isPaid := false

/-- A text update carrying markup that must be stripped. -/
def sampleTextPayload : String := "<b>hi</b> <img src=x onerror=alert(1)> ok"

/-- The update record sent by the operator text editing UI. -/
def sampleUpdate : TextLayerUpdate := { text := some sampleTextPayload }

/-- A `GUEST_ACTION` message whose `GUEST_SELECT_LAYOUT` payload carries a
numeric `layout` field. -/
def badLayoutMsg : JVal :=
  .jobj [("type", .jstr "GUEST_ACTION"),
         ("payload", .jobj [("type", .jstr "GUEST_SELECT_LAYOUT"), ("layout", .jnum 5)])]

/-- A `GUEST_ACTION` message whose `GUEST_EMAIL` payload carries a boolean
`email` field. -/
def badEmailMsg : JVal :=
  .jobj [("type", .jstr "GUEST_ACTION"),
         ("payload", .jobj [("type", .jstr "GUEST_EMAIL"), ("email", .jbool true)])]

/-- A sample operator app state. -/
def sampleAppState : AppState where
  session := sampleSession
  settings :=
    { frameSrc := some "frame.png"
      availableFrames := []
      placeholders := []
      layoutOptions := [⟨"strip-3", [⟨1, 0, 0, 1/2, 1/2⟩]⟩]
      pricePerPrint := 5 }
  analytics :=
    { totalSessions := 3, totalPhotosTaken := 12, totalPrints := 2,
      emailsCollected := ["a@b.c"], totalRevenue := 10 }
  guestLayoutId := none
  appStep := .PHOTO_UPLOAD

/-! ## Theorems -/

/-- C1: the claim states that N session edits inside one 150 ms quiet
window with no request pending produce exactly one compositor request.
The code satisfies this for `N = 1` (first conjunct), but for `N ≥ 2` the
second edit's effect re-run clears the armed debounce timeout while the
eagerly-set `workerPendingRef` flag makes the body return without
rescheduling: zero requests are posted and the pending flag stays set
forever, suppressing all later composites (edits at 1000 and 2000 ms post
nothing either). -/
theorem compositor_debounce_drops_rapid_edits :
    (runEdits [0]).posts = 1
    ∧ (runEdits [0, 50]).posts = 0
    ∧ (runEdits [0, 50]).pending = true
    ∧ (runEdits [0, 50, 1000, 2000]).posts = 0 := by
  decide

/-- C2 counterexample: the claim "sticker width and height never fall below
0.02" fails for height.  The source floors only the width
(`newW = max(0.02, …)`) and derives the height as `newW / aspect`: a
sticker of width 0.08 and height exactly 0.02 shrunk to the floor ends at
height 0.005 < 0.02. -/
theorem sticker_scale_height_floor_counterexample :
    wideSticker.height = 1/50
    ∧ (scalingUpdateSticker wideSticker 0 100).width = 1/50
    ∧ (scalingUpdateSticker wideSticker 0 100).height = 1/200
    ∧ (scalingUpdateSticker wideSticker 0 100).height < 0.02 := by
  norm_num [wideSticker, scalingUpdateSticker, max_def]

/-- C2 (amended): scaling floors the sticker width and the text font size
at 0.02, and the height follows the gesture-start aspect ratio (so it is
floored at `0.02 / aspect`, not at 0.02); moving and rotating leave the
size fields untouched; moving translates `x`,`y` by the raw pointer delta
with no clamping to `[0,1]`. -/
theorem gesture_size_floor_amended :
    ∀ (s : StickerLayer) (tl : TextLayer) (cd sd dx dy deg : ℚ),
      0.02 ≤ (scalingUpdateSticker s cd sd).width
    ∧ 0.02 ≤ (scalingUpdateText tl cd sd).fontSize
    ∧ (s.width ≠ 0 → s.height ≠ 0 →
        (scalingUpdateSticker s cd sd).height * s.width
          = (scalingUpdateSticker s cd sd).width * s.height)
    ∧ (movingUpdateSticker s dx dy).x = s.x + dx
    ∧ (movingUpdateSticker s dx dy).y = s.y + dy
    ∧ (movingUpdateSticker s dx dy).width = s.width
    ∧ (movingUpdateSticker s dx dy).height = s.height
    ∧ (movingUpdateText tl dx dy).x = tl.x + dx
    ∧ (movingUpdateText tl dx dy).fontSize = tl.fontSize
    ∧ (rotatingUpdateSticker s deg).width = s.width
    ∧ (rotatingUpdateSticker s deg).height = s.height
    ∧ (rotatingUpdateText tl deg).fontSize = tl.fontSize := by
  intro s tl cd sd dx dy deg
  refine ⟨le_max_left _ _, le_max_left _ _, ?_, rfl, rfl, rfl, rfl, rfl, rfl, rfl, rfl, rfl⟩
  intro hw hh
  simp only [scalingUpdateSticker]
  field_simp

/-- C2 witness: the amended statement applied to the example sticker with
the pointer at half the start distance. -/
theorem gesture_size_floor_amended_witness :
    exampleSticker.width ≠ 0
    ∧ exampleSticker.height ≠ 0
    ∧ 0.02 ≤ (scalingUpdateSticker exampleSticker 50 100).width
    ∧ (scalingUpdateSticker exampleSticker 50 100).height * exampleSticker.width
        = (scalingUpdateSticker exampleSticker 50 100).width * exampleSticker.height := by
  have h := gesture_size_floor_amended exampleSticker sampleTextA 50 100 0 0 0
  have hw : exampleSticker.width ≠ 0 := by norm_num [exampleSticker]
  have hh : exampleSticker.height ≠ 0 := by norm_num [exampleSticker]
  exact ⟨hw, hh, h.1, h.2.2.1 hw hh⟩

/-- C3: the spec's crop-pan example — photo at rotation 0 with neutral
crop, pointer dragged by (20, 20) canvas pixels at `globalPhotoScale = 1`,
yields `crop = {x: -20, y: -20, scale: 1}`. -/
theorem crop_pan_example_scenario :
    ∀ t : TrigDeg, t.Sound →
      cropPanUpdate t examplePhoto 20 20 1 = { x := -20, y := -20, scale := 1 } := by
  intro t ht
  obtain ⟨-, hc0, hs0⟩ := ht
  simp only [cropPanUpdate, examplePhoto, neg_zero, hc0, hs0]
  norm_num

/-- C3 witness: the example evaluated with a concrete sound evaluator. -/
theorem crop_pan_example_scenario_witness :
    trivTrig.Sound
    ∧ cropPanUpdate trivTrig examplePhoto 20 20 1 = { x := -20, y := -20, scale := 1 } := by
  have hs : trivTrig.Sound := by
    refine ⟨fun θ => ?_, rfl, rfl⟩
    norm_num [trivTrig]
  exact ⟨hs, crop_pan_example_scenario trivTrig hs⟩

/-- C7: the crop-pan update rotates the pointer delta into the photo's
local frame (first conjunct, the exact update formula) and the squared
magnitude of the applied crop-offset change is
`(dx² + dy²) / (globalPhotoScale · crop.scale)²` — independent of the
rotation angle, by the Pythagorean identity; the crop scale is untouched. -/
theorem crop_pan_rotation_invariance :
    ∀ t : TrigDeg, t.Sound → ∀ (p : Photo) (dx dy gps : ℚ),
      gps * p.crop.scale ≠ 0 →
      (cropPanUpdate t p dx dy gps).x
        = p.crop.x - (dx * t.cosd (-p.transform.rotation)
            - dy * t.sind (-p.transform.rotation)) * (1 / (gps * p.crop.scale))
      ∧ ((cropPanUpdate t p dx dy gps).x - p.crop.x) ^ 2
          + ((cropPanUpdate t p dx dy gps).y - p.crop.y) ^ 2
        = (dx ^ 2 + dy ^ 2) / (gps * p.crop.scale) ^ 2
      ∧ (cropPanUpdate t p dx dy gps).scale = p.crop.scale := by
  intro t ht p dx dy gps hne
  have h1 := ht.1 (-p.transform.rotation)
  refine ⟨rfl, ?_, rfl⟩
  simp only [cropPanUpdate]
  field_simp
  linear_combination (dx ^ 2 + dy ^ 2) * h1

/-- C7 witness: rotation invariance evaluated at a concrete photo and a
(3, 4) pointer delta. -/
theorem crop_pan_rotation_invariance_witness :
    trivTrig.Sound
    ∧ (1 : ℚ) * examplePhoto.crop.scale ≠ 0
    ∧ (((cropPanUpdate trivTrig examplePhoto 3 4 1).x - examplePhoto.crop.x) ^ 2
        + ((cropPanUpdate trivTrig examplePhoto 3 4 1).y - examplePhoto.crop.y) ^ 2
      = ((3 : ℚ) ^ 2 + 4 ^ 2) / (1 * examplePhoto.crop.scale) ^ 2) := by
  have hs : trivTrig.Sound := by
    refine ⟨fun θ => ?_, rfl, rfl⟩
    norm_num [trivTrig]
  have hne : (1 : ℚ) * examplePhoto.crop.scale ≠ 0 := by norm_num [examplePhoto]
  exact ⟨hs, hne, (crop_pan_rotation_invariance trivTrig hs examplePhoto 3 4 1 hne).2.1⟩

/-- C8: the spec's corner-scale example — the 0.2×0.2 sticker scaled to
double the pointer-to-center distance ends at width = height = 0.4, the
floor not engaging. -/
theorem sticker_corner_scale_double :
    ∀ d : ℚ, d ≠ 0 →
      (scalingUpdateSticker exampleSticker (2 * d) d).width = 2/5
      ∧ (scalingUpdateSticker exampleSticker (2 * d) d).height = 2/5 := by
  intro d hd
  simp only [scalingUpdateSticker, exampleSticker, if_neg hd]
  rw [mul_div_assoc, div_self hd]
  norm_num

/-- C8 witness: the doubling scenario at a start distance of 100 px. -/
theorem sticker_corner_scale_double_witness :
    (100 : ℚ) ≠ 0
    ∧ (scalingUpdateSticker exampleSticker (2 * 100) 100).width = 2/5
    ∧ (scalingUpdateSticker exampleSticker (2 * 100) 100).height = 2/5 := by
  have h := sticker_corner_scale_double 100 (by norm_num)
  exact ⟨by norm_num, h.1, h.2⟩

/-- Characters surviving `stripTags` (and its `stripTagsAfterLt` phase)
come from the input. -/
theorem stripTags_mem :
    ∀ l : List Char, (∀ a, a ∈ stripTags l → a ∈ l) ∧ (∀ a, a ∈ stripTagsAfterLt l → a ∈ l) := by
  intro l
  induction l with
  | nil => simp [stripTags, stripTagsAfterLt]
  | cons c rest ih =>
    constructor
    · intro a ha
      rw [stripTags] at ha
      split at ha
      · exact List.mem_cons_of_mem c (ih.2 a ha)
      · rcases List.mem_cons.mp ha with h | h
        · simp [h]
        · exact List.mem_cons_of_mem c (ih.1 a h)
    · intro a ha
      rw [stripTagsAfterLt] at ha
      split at ha
      · exact List.mem_cons_of_mem c (ih.1 a ha)
      · exact List.mem_cons_of_mem c (ih.2 a ha)

/-- The output of `stripTags` never has a `<` with a `>` after it: every
removed span ends at a `>`, and a kept `<` has no `>` anywhere after it. -/
theorem hasLtThenGt_stripTags :
    ∀ l : List Char,
      hasLtThenGt (stripTags l) = false ∧ hasLtThenGt (stripTagsAfterLt l) = false := by
  intro l
  induction l with
  | nil => simp [stripTags, stripTagsAfterLt, hasLtThenGt]
  | cons c rest ih =>
    constructor
    · rw [stripTags]
      split
      · exact ih.2
      · rename_i hcond
        rw [hasLtThenGt, ih.1, Bool.or_false]
        by_cases hc : c = '<'
        · have hrest : ('>' ∈ rest) → False := by
            intro hmem
            exact hcond (by simp [hc, List.elem_iff, hmem])
          have hout : (stripTags rest).contains '>' = false := by
            rw [Bool.eq_false_iff]
            intro hcontra
            exact hrest ((stripTags_mem rest).1 '>' (List.elem_iff.mp hcontra))
          rw [hout, Bool.and_false]
        · simp [hc]
    · rw [stripTagsAfterLt]
      split
      · exact ih.1
      · exact ih.2

/-- Truncation preserves freedom from the `<`-then-`>` pattern. -/
theorem hasLtThenGt_take :
    ∀ (l : List Char) (n : ℕ), hasLtThenGt l = false → hasLtThenGt (l.take n) = false := by
  intro l
  induction l with
  | nil => simp
  | cons c rest ih =>
    intro n h
    cases n with
    | zero => simp [hasLtThenGt]
    | succ m =>
      rw [hasLtThenGt] at h
      rcases Bool.or_eq_false_iff.mp h with ⟨h1, h2⟩
      rw [List.take_succ_cons, hasLtThenGt, ih m h2, Bool.or_false]
      by_cases hc : c = '<'
      · have hrest : rest.contains '>' = false := by simpa [hc] using h1
        have htake : (rest.take m).contains '>' = false := by
          rw [Bool.eq_false_iff]
          intro hcontra
          have : '>' ∈ rest := List.take_subset m rest (List.elem_iff.mp hcontra)
          rw [Bool.eq_false_iff] at hrest
          exact hrest (List.elem_iff.mpr this)
        rw [htake, Bool.and_false]
      · simp [hc]

/-- C9: a text-layer update through `handleUpdateText` stores a sanitized
text — HTML-tag spans `<…>` are removed (the stored text has no `<` with a
later `>`, so in particular no `<…>` substring) and the text is truncated
to at most 300 characters. -/
theorem text_update_sanitizes :
    ∀ (session : PhotoboothSession) (index : ℕ) (u : TextLayerUpdate) (s : String),
      u.text = some s → index < session.textLayers.length →
      ∃ tl, (handleUpdateText session index u).textLayers.get? index = some tl
        ∧ tl.text = sanitize s
        ∧ tl.text.length ≤ 300
        ∧ hasLtThenGt tl.text.data = false := by
  intro session index u s hu hlen
  obtain ⟨told, hget⟩ : ∃ a, session.textLayers.get? index = some a :=
    ⟨session.textLayers.get ⟨index, hlen⟩, List.get?_eq_get hlen⟩
  refine ⟨applyTextUpdate told { u with text := some (sanitize s) }, ?_, ?_, ?_, ?_⟩
  · simp [handleUpdateText, hu, List.get?_map, List.get?_enum]
    refine ⟨told, ?_, rfl⟩
    rw [← List.get?_eq_getElem?]
    exact hget
  · simp [applyTextUpdate]
  · simp only [applyTextUpdate, Option.getD_some, sanitize]
    simp
  · simp only [applyTextUpdate, Option.getD_some, sanitize]
    exact hasLtThenGt_take _ 300 (hasLtThenGt_stripTags s.data).1

/-- C9 witness: the sanitizer run on a concrete markup-laden update. -/
theorem text_update_sanitizes_witness :
    sampleUpdate.text = some sampleTextPayload
    ∧ 0 < sampleSession.textLayers.length
    ∧ ∃ tl, (handleUpdateText sampleSession 0 sampleUpdate).textLayers.get? 0 = some tl
        ∧ tl.text = sanitize sampleTextPayload
        ∧ tl.text.length ≤ 300
        ∧ hasLtThenGt tl.text.data = false := by
  refine ⟨rfl, by simp [sampleSession], ?_⟩
  exact text_update_sanitizes sampleSession 0 sampleUpdate sampleTextPayload rfl
    (by simp [sampleSession])

/-- C5: a `GUEST_ACTION` message whose payload has type
`GUEST_SELECT_LAYOUT` but a non-string `layout` field fails validation and
is silently dropped — the canonical state is unchanged (first part); and in
general a message that passes validation as a guest action carries one of
the eight allow-listed payload types (second part). -/
theorem select_layout_validation_drop :
    (∀ (st : AppState) (msg : JVal),
      msg.truthy = true → msg.typeofObject = true →
      msg.field "type" = .jstr "GUEST_ACTION" →
      (msg.field "payload").truthy = true →
      (msg.field "payload").typeofObject = true →
      (msg.field "payload").field "type" = .jstr "GUEST_SELECT_LAYOUT" →
      ((msg.field "payload").field "layout").typeofString = false →
      validateInterWindowMessage msg = false ∧ handleChannelMessage st msg = st)
    ∧ (∀ msg : JVal,
        validateInterWindowMessage msg = true →
        (msg.field "type").strEq "GUEST_ACTION" = true →
        allowedGuestActionTypes.contains ((msg.field "payload").field "type").strOf = true) := by
  constructor
  · intro st msg h0 h1 h2 h3 h4 h5 h6
    have e1 : (msg.field "type").strEq "GUEST_ACTION" = true := by rw [h2]; rfl
    have e2 : ((msg.field "payload").field "type").typeofString = true := by rw [h5]; rfl
    have e3 : ((msg.field "payload").field "type").strOf = "GUEST_SELECT_LAYOUT" := by
      rw [h5]; rfl
    have e4 : allowedGuestActionTypes.contains "GUEST_SELECT_LAYOUT" = true := by rfl
    have hv : validateInterWindowMessage msg = false := by
      simp [validateInterWindowMessage, h0, h1, h3, h4, e1, e2, e3, e4, h6]
    exact ⟨hv, by simp [handleChannelMessage, hv]⟩
  · intro msg hval hga
    simp only [validateInterWindowMessage] at hval
    split at hval
    · simp at hval
    · rw [Bool.and_eq_true] at hval
      rcases hval with ⟨h7, -⟩
      split at h7
      · simp at h7
      · split at h7
        · simp at h7
        · rename_i hcontains
          simpa using hcontains

/-- C5 witness: the validator run on a concrete message with a numeric
`layout` field, against a concrete app state. -/
theorem select_layout_validation_drop_witness :
    badLayoutMsg.truthy = true
    ∧ badLayoutMsg.field "type" = .jstr "GUEST_ACTION"
    ∧ (badLayoutMsg.field "payload").field "type" = .jstr "GUEST_SELECT_LAYOUT"
    ∧ ((badLayoutMsg.field "payload").field "layout").typeofString = false
    ∧ validateInterWindowMessage badLayoutMsg = false
    ∧ handleChannelMessage sampleAppState badLayoutMsg = sampleAppState := by
  have h := select_layout_validation_drop.1 sampleAppState badLayoutMsg
    rfl rfl rfl rfl rfl rfl rfl
  exact ⟨rfl, rfl, rfl, rfl, h.1, h.2⟩

/-- C10: a `GUEST_ACTION` message whose `GUEST_EMAIL` payload has a
non-string `email` field, or one longer than 200 characters, fails
validation and is silently dropped: the canonical state — in particular
the collected-emails analytics — is unchanged. -/
theorem guest_email_validation_drop :
    ∀ (st : AppState) (msg : JVal),
      msg.truthy = true → msg.typeofObject = true →
      msg.field "type" = .jstr "GUEST_ACTION" →
      (msg.field "payload").truthy = true →
      (msg.field "payload").typeofObject = true →
      (msg.field "payload").field "type" = .jstr "GUEST_EMAIL" →
      (((msg.field "payload").field "email").typeofString = false
        ∨ 200 < ((msg.field "payload").field "email").strOf.length) →
      validateInterWindowMessage msg = false
      ∧ handleChannelMessage st msg = st
      ∧ (handleChannelMessage st msg).analytics.emailsCollected
          = st.analytics.emailsCollected := by
  intro st msg h0 h1 h2 h3 h4 h5 h6
  have e1 : (msg.field "type").strEq "GUEST_ACTION" = true := by rw [h2]; rfl
  have e2 : ((msg.field "payload").field "type").typeofString = true := by rw [h5]; rfl
  have e3 : ((msg.field "payload").field "type").strOf = "GUEST_EMAIL" := by rw [h5]; rfl
  have e4 : allowedGuestActionTypes.contains "GUEST_EMAIL" = true := by rfl
  have hv : validateInterWindowMessage msg = false := by
    rcases h6 with h6 | h6 <;>
      simp [validateInterWindowMessage, h0, h1, h3, h4, e1, e2, e3, e4, h6]
  have hunch : handleChannelMessage st msg = st := by simp [handleChannelMessage, hv]
  exact ⟨hv, hunch, by rw [hunch]⟩

/-- C10 witness: the validator run on a concrete message with a boolean
`email` field. -/
theorem guest_email_validation_drop_witness :
    badEmailMsg.truthy = true
    ∧ badEmailMsg.field "type" = .jstr "GUEST_ACTION"
    ∧ (badEmailMsg.field "payload").field "type" = .jstr "GUEST_EMAIL"
    ∧ ((badEmailMsg.field "payload").field "email").typeofString = false
    ∧ validateInterWindowMessage badEmailMsg = false
    ∧ handleChannelMessage sampleAppState badEmailMsg = sampleAppState
    ∧ (handleChannelMessage sampleAppState badEmailMsg).analytics.emailsCollected
        = sampleAppState.analytics.emailsCollected := by
  have h := guest_email_validation_drop sampleAppState badEmailMsg
    rfl rfl rfl rfl rfl rfl (Or.inl rfl)
  exact ⟨rfl, rfl, rfl, rfl, h.1, h.2.1, h.2.2⟩

/-- A descending scan returns the entry found at `j` when every index
above `j` yields nothing. -/
theorem scanDesc_eq_some (f : ℕ → Option Hit) (j : ℕ) (h : Hit) :
    ∀ n, j < n → f j = some h → (∀ k, j < k → k < n → f k = none) →
      scanDesc f n = some h := by
  intro n
  induction n with
  | zero => exact fun h1 _ _ => absurd h1 (Nat.not_lt_zero j)
  | succ m ih =>
    intro hj hfj habove
    rw [scanDesc]
    by_cases hjm : j = m
    · subst hjm
      rw [hfj]
    · have hm : f m = none := habove m (by omega) (by omega)
      rw [hm]
      exact ih (by omega) hfj (fun k hk1 hk2 => habove k hk1 (by omega))

/-- A descending scan over all-missing entries returns nothing. -/
theorem scanDesc_eq_none (f : ℕ → Option Hit) :
    ∀ n, (∀ k, k < n → f k = none) → scanDesc f n = none := by
  intro n
  induction n with
  | zero => intro ; rfl
  | succ m ih =>
    intro hall
    rw [scanDesc, hall m (by omega)]
    exact ih (fun k hk => hall k (by omega))

/-- If the text layer at `i` exists and its body contains the pointer, the
text check at `i` yields a hit on that layer (a handle hit when selected,
a `move` hit otherwise — always index `i`). -/
theorem textCheckAt_of_body (t : TrigDeg) (env : EditorEnv) (measure : TextLayer → ℚ)
    (st : EditorState) (mx my : ℚ) (i : ℕ) (tl : TextLayer)
    (hget : st.textLayers[i]? = some tl)
    (hbody : textBodyContains t env measure tl mx my = true) :
    ∃ hk, textCheckAt t env measure st mx my i = some ⟨hk, .text, i⟩ := by
  by_cases hsel : st.selectedLayerKind = .text ∧ st.selectedLayerIndex = (i : ℤ)
  · by_cases h1 : textRotHandleHit t env tl mx my
    · exact ⟨.rotate, by simp [textCheckAt, hget, hsel, h1]⟩
    · by_cases h2 : textScaleHandleHit t env measure tl mx my
      · exact ⟨.scale, by simp [textCheckAt, hget, hsel, h1, h2]⟩
      · exact ⟨.move, by simp [textCheckAt, hget, hsel, h1, h2, hbody]⟩
  · exact ⟨.move, by simp [textCheckAt, hget, hsel, hbody]⟩

/-- A text index whose body misses the pointer and which is not the active
selection contributes nothing to the scan. -/
theorem textCheckAt_eq_none (t : TrigDeg) (env : EditorEnv) (measure : TextLayer → ℚ)
    (st : EditorState) (mx my : ℚ) (i : ℕ)
    (hbody : ∀ tl, st.textLayers[i]? = some tl →
      textBodyContains t env measure tl mx my = false)
    (hsel : ¬(st.selectedLayerKind = .text ∧ st.selectedLayerIndex = (i : ℤ))) :
    textCheckAt t env measure st mx my i = none := by
  cases hget : st.textLayers[i]? with
  | none => simp [textCheckAt, hget]
  | some tl => simp [textCheckAt, hget, hsel, hbody tl hget]

/-- Sticker analogue of `textCheckAt_of_body`. -/
theorem stickerCheckAt_of_body (t : TrigDeg) (env : EditorEnv)
    (st : EditorState) (mx my : ℚ) (i : ℕ) (s : StickerLayer)
    (hget : st.stickers[i]? = some s)
    (hbody : stickerBodyContains t env s mx my = true) :
    ∃ hk, stickerCheckAt t env st mx my i = some ⟨hk, .sticker, i⟩ := by
  by_cases hsel : st.selectedLayerKind = .sticker ∧ st.selectedLayerIndex = (i : ℤ)
  · by_cases h1 : stickerRotHandleHit t env s mx my
    · exact ⟨.rotate, by simp [stickerCheckAt, hget, hsel, h1]⟩
    · by_cases h2 : stickerScaleHandleHit t env s mx my
      · exact ⟨.scale, by simp [stickerCheckAt, hget, hsel, h1, h2]⟩
      · exact ⟨.move, by simp [stickerCheckAt, hget, hsel, h1, h2, hbody]⟩
  · exact ⟨.move, by simp [stickerCheckAt, hget, hsel, hbody]⟩

/-- Sticker analogue of `textCheckAt_eq_none`. -/
theorem stickerCheckAt_eq_none (t : TrigDeg) (env : EditorEnv)
    (st : EditorState) (mx my : ℚ) (i : ℕ)
    (hbody : ∀ s, st.stickers[i]? = some s →
      stickerBodyContains t env s mx my = false)
    (hsel : ¬(st.selectedLayerKind = .sticker ∧ st.selectedLayerIndex = (i : ℤ))) :
    stickerCheckAt t env st mx my i = none := by
  cases hget : st.stickers[i]? with
  | none => simp [stickerCheckAt, hget]
  | some s => simp [stickerCheckAt, hget, hsel, hbody s hget]

/-- Photo analogue of `textCheckAt_of_body`. -/
theorem photoCheckAt_of_body (t : TrigDeg) (env : EditorEnv)
    (st : EditorState) (mx my : ℚ) (i : ℕ) (p : Photo)
    (hget : st.photos[i]? = some p)
    (hbody : photoBodyContains t env st.globalPhotoScale p mx my = true) :
    ∃ hk, photoCheckAt t env st mx my i = some ⟨hk, .photo, i⟩ := by
  by_cases hsel : st.selectedLayerKind = .photo ∧ st.selectedLayerIndex = (i : ℤ)
  · by_cases h1 : photoRotHandleHit t env st.globalPhotoScale p mx my
    · exact ⟨.rotate, by simp [photoCheckAt, hget, hsel, h1]⟩
    · exact ⟨.move, by simp [photoCheckAt, hget, hsel, h1, hbody]⟩
  · exact ⟨.move, by simp [photoCheckAt, hget, hsel, hbody]⟩

/-- C4: hit-testing order.  (a) The topmost text layer containing the
pointer is returned — layers above it neither containing the pointer nor
being the active selection — regardless of any stickers or photos below;
in particular, of two overlapping text layers the higher index wins.
(b) When every text index misses, the topmost containing sticker is
returned.  (c) When every text and sticker index misses, the topmost
containing photo is returned.  Determinism is immediate: the embedded
`getHit` is a pure function of the layer arrays and the pointer. -/
theorem hit_testing_topmost_order :
    ∀ (t : TrigDeg) (env : EditorEnv) (measure : TextLayer → ℚ) (st : EditorState) (mx my : ℚ),
      (∀ (j : ℕ) (tl : TextLayer),
        st.textLayers[j]? = some tl →
        textBodyContains t env measure tl mx my = true →
        (∀ k, j < k → k < st.textLayers.length →
          (∀ tk, st.textLayers[k]? = some tk →
            textBodyContains t env measure tk mx my = false)
          ∧ ¬(st.selectedLayerKind = .text ∧ st.selectedLayerIndex = (k : ℤ))) →
        ∃ hk, getHit t env measure st false mx my = some ⟨hk, .text, j⟩)
    ∧ ((∀ k, k < st.textLayers.length →
          (∀ tk, st.textLayers[k]? = some tk →
            textBodyContains t env measure tk mx my = false)
          ∧ ¬(st.selectedLayerKind = .text ∧ st.selectedLayerIndex = (k : ℤ))) →
        ∀ (j : ℕ) (s : StickerLayer),
        st.stickers[j]? = some s →
        stickerBodyContains t env s mx my = true →
        (∀ k, j < k → k < st.stickers.length →
          (∀ sk, st.stickers[k]? = some sk →
            stickerBodyContains t env sk mx my = false)
          ∧ ¬(st.selectedLayerKind = .sticker ∧ st.selectedLayerIndex = (k : ℤ))) →
        ∃ hk, getHit t env measure st false mx my = some ⟨hk, .sticker, j⟩)
    ∧ ((∀ k, k < st.textLayers.length →
          (∀ tk, st.textLayers[k]? = some tk →
            textBodyContains t env measure tk mx my = false)
          ∧ ¬(st.selectedLayerKind = .text ∧ st.selectedLayerIndex = (k : ℤ))) →
        (∀ k, k < st.stickers.length →
          (∀ sk, st.stickers[k]? = some sk →
            stickerBodyContains t env sk mx my = false)
          ∧ ¬(st.selectedLayerKind = .sticker ∧ st.selectedLayerIndex = (k : ℤ))) →
        ∀ (j : ℕ) (p : Photo),
        st.photos[j]? = some p →
        photoBodyContains t env st.globalPhotoScale p mx my = true →
        (∀ k, j < k → k < st.photos.length →
          (∀ pk, st.photos[k]? = some pk →
            photoBodyContains t env st.globalPhotoScale pk mx my = false)
          ∧ ¬(st.selectedLayerKind = .photo ∧ st.selectedLayerIndex = (k : ℤ))) →
        ∃ hk, getHit t env measure st false mx my = some ⟨hk, .photo, j⟩) := by
  intro t env measure st mx my
  refine ⟨?_, ?_, ?_⟩
  · intro j tl hget hbody habove
    have hj : j < st.textLayers.length := by
      by_contra hc
      push_neg at hc
      rw [List.getElem?_eq_none hc] at hget
      exact absurd hget (by simp)
    obtain ⟨hk, hcheck⟩ := textCheckAt_of_body t env measure st mx my j tl hget hbody
    have hscan : scanDesc (textCheckAt t env measure st mx my) st.textLayers.length
        = some ⟨hk, .text, j⟩ :=
      scanDesc_eq_some _ j _ _ hj hcheck
        (fun k hk1 hk2 =>
          textCheckAt_eq_none t env measure st mx my k
            (habove k hk1 hk2).1 (habove k hk1 hk2).2)
    exact ⟨hk, by simp [getHit, hscan]⟩
  · intro htmiss j s hget hbody habove
    have hj : j < st.stickers.length := by
      by_contra hc
      push_neg at hc
      rw [List.getElem?_eq_none hc] at hget
      exact absurd hget (by simp)
    have htnone : scanDesc (textCheckAt t env measure st mx my) st.textLayers.length = none :=
      scanDesc_eq_none _ _ (fun k hk =>
        textCheckAt_eq_none t env measure st mx my k (htmiss k hk).1 (htmiss k hk).2)
    obtain ⟨hk, hcheck⟩ := stickerCheckAt_of_body t env st mx my j s hget hbody
    have hscan : scanDesc (stickerCheckAt t env st mx my) st.stickers.length
        = some ⟨hk, .sticker, j⟩ :=
      scanDesc_eq_some _ j _ _ hj hcheck
        (fun k hk1 hk2 =>
          stickerCheckAt_eq_none t env st mx my k
            (habove k hk1 hk2).1 (habove k hk1 hk2).2)
    exact ⟨hk, by simp [getHit, htnone, hscan]⟩
  · intro htmiss hsmiss j p hget hbody habove
    have hj : j < st.photos.length := by
      by_contra hc
      push_neg at hc
      rw [List.getElem?_eq_none hc] at hget
      exact absurd hget (by simp)
    have htnone : scanDesc (textCheckAt t env measure st mx my) st.textLayers.length = none :=
      scanDesc_eq_none _ _ (fun k hk =>
        textCheckAt_eq_none t env measure st mx my k (htmiss k hk).1 (htmiss k hk).2)
    have hsnone : scanDesc (stickerCheckAt t env st mx my) st.stickers.length = none :=
      scanDesc_eq_none _ _ (fun k hk =>
        stickerCheckAt_eq_none t env st mx my k (hsmiss k hk).1 (hsmiss k hk).2)
    obtain ⟨hk, hcheck⟩ := photoCheckAt_of_body t env st mx my j p hget hbody
    have hphoto : ∀ k, j < k → k < st.photos.length → photoCheckAt t env st mx my k = none := by
      intro k hk1 hk2
      cases hgk : st.photos[k]? with
      | none => simp [photoCheckAt, hgk]
      | some pk =>
        simp [photoCheckAt, hgk, (habove k hk1 hk2).2, (habove k hk1 hk2).1 pk hgk]
    have hscan : scanDesc (photoCheckAt t env st mx my) st.photos.length
        = some ⟨hk, .photo, j⟩ :=
      scanDesc_eq_some _ j _ _ hj hcheck hphoto
    exact ⟨hk, by simp [getHit, htnone, hsnone, hscan]⟩

/-- C4 witness: two overlapping text layers under the pointer, nothing
selected — the hit goes to index 1, the higher of the two. -/
theorem hit_testing_topmost_order_witness :
    overlappingTextState.textLayers[1]? = some sampleTextB
    ∧ textBodyContains trivTrig sampleEnv constMeasure sampleTextB 500 500 = true
    ∧ textBodyContains trivTrig sampleEnv constMeasure sampleTextA 500 500 = true
    ∧ ∃ hk, getHit trivTrig sampleEnv constMeasure overlappingTextState false 500 500
        = some ⟨hk, .text, 1⟩ := by
  have hbodyB : textBodyContains trivTrig sampleEnv constMeasure sampleTextB 500 500 = true := by
    norm_num [textBodyContains, localPos, sampleTextB, sampleTextA, sampleEnv, constMeasure,
      trivTrig]
  have hbodyA : textBodyContains trivTrig sampleEnv constMeasure sampleTextA 500 500 = true := by
    norm_num [textBodyContains, localPos, sampleTextA, sampleEnv, constMeasure, trivTrig]
  refine ⟨rfl, hbodyB, hbodyA, ?_⟩
  refine (hit_testing_topmost_order trivTrig sampleEnv constMeasure overlappingTextState
    500 500).1 1 sampleTextB rfl hbodyB ?_
  intro k hk1 hk2
  have : k < 2 := by simpa [overlappingTextState] using hk2
  omega

/-- An index that is negative or at least the length reads `undefined`. -/
theorem jsIndex_eq_none (l : List α) (i : ℤ)
    (h : i < 0 ∨ (l.length : ℤ) ≤ i) : jsIndex l i = none := by
  unfold jsIndex
  rcases h with h | h
  · rw [if_pos h]
  · have h0 : ¬ i < 0 := by omega
    rw [if_neg h0]
    refine List.getElem?_eq_none ?_
    omega

/-- Length of the index-dropping filter over `enumFrom`: one element is
removed exactly when the dropped index lies in the enumerated range. -/
theorem filter_enumFrom_ne_length :
    ∀ (l : List α) (k : ℕ) (i : ℤ),
      (((List.enumFrom k l).filter (fun p => (p.1 : ℤ) ≠ i)).length : ℤ)
        = if (k : ℤ) ≤ i ∧ i < (k : ℤ) + l.length then (l.length : ℤ) - 1 else l.length := by
  intro l
  induction l with
  | nil =>
    intro k i
    simp only [List.enumFrom_nil, List.filter_nil, List.length_nil, Nat.cast_zero, add_zero]
    rw [if_neg (by omega)]
  | cons a l ih =>
    intro k i
    rw [List.enumFrom_cons, List.filter_cons]
    by_cases hk : (k : ℤ) = i
    · have hd : (decide ((((k, a).1 : ℕ) : ℤ) ≠ i)) = false := by simp [hk]
      rw [hd, if_neg Bool.false_ne_true]
      rw [ih (k + 1) i]
      simp only [List.length_cons, Nat.cast_add, Nat.cast_one]
      rw [if_neg (show ¬((k : ℤ) + 1 ≤ i ∧ i < (k : ℤ) + 1 + l.length) by omega)]
      rw [if_pos (show (k : ℤ) ≤ i ∧ i < (k : ℤ) + ((l.length : ℤ) + 1) by omega)]
      omega
    · have hd : (decide ((((k, a).1 : ℕ) : ℤ) ≠ i)) = true := by simp [hk]
      rw [hd, if_pos rfl]
      simp only [List.length_cons, Nat.cast_add, Nat.cast_one]
      rw [ih (k + 1) i]
      push_cast
      by_cases hin : (k : ℤ) ≤ i ∧ i < (k : ℤ) + ((l.length : ℤ) + 1)
      · rw [if_pos hin]
        rw [if_pos (show (k : ℤ) + 1 ≤ i ∧ i < (k : ℤ) + 1 + l.length by omega)]
        omega
      · rw [if_neg hin]
        rw [if_neg (show ¬((k : ℤ) + 1 ≤ i ∧ i < (k : ℤ) + 1 + l.length) by omega)]

/-- Removing a valid index shrinks the list by one. -/
theorem removeAt_length (l : List α) (i : ℤ)
    (h0 : 0 ≤ i) (h1 : i < (l.length : ℤ)) :
    ((removeAt l i).length : ℤ) = (l.length : ℤ) - 1 := by
  unfold removeAt
  rw [List.length_map]
  have := filter_enumFrom_ne_length l 0 i
  rw [if_pos (by push_cast; omega)] at this
  simpa [List.enum] using this

/-- C6: an invalid selection renders no affordances.  The first three
conjuncts: when the selection index is `-1`, negative, or at least the
length of the selected kind's layer array, the selection-overlay pass of
`draw` outputs nothing (the embedded pass is a total function, so it also
cannot raise).  The last two conjuncts: `handleDeleteLayer` always resets
the selection index to `-1`, and deleting a validly-selected sticker
shrinks the sticker array by one. -/
theorem invalid_selection_renders_no_overlay :
    (∀ (env : EditorEnv) (measure : TextLayer → ℚ) (st : EditorState) (d : Bool),
      st.selectedLayerKind = .photo →
      (st.selectedLayerIndex < 0 ∨ (st.photos.length : ℤ) ≤ st.selectedLayerIndex) →
      selectionOverlay env measure st d = none)
    ∧ (∀ (env : EditorEnv) (measure : TextLayer → ℚ) (st : EditorState) (d : Bool),
      st.selectedLayerKind = .sticker →
      (st.selectedLayerIndex < 0 ∨ (st.stickers.length : ℤ) ≤ st.selectedLayerIndex) →
      selectionOverlay env measure st d = none)
    ∧ (∀ (env : EditorEnv) (measure : TextLayer → ℚ) (st : EditorState) (d : Bool),
      st.selectedLayerKind = .text →
      (st.selectedLayerIndex < 0 ∨ (st.textLayers.length : ℤ) ≤ st.selectedLayerIndex) →
      selectionOverlay env measure st d = none)
    ∧ (∀ op : OperatorState, (handleDeleteLayer op).selectedLayerIndex = -1)
    ∧ (∀ op : OperatorState, op.selectedLayerKind = .sticker →
        0 ≤ op.selectedLayerIndex →
        op.selectedLayerIndex < (op.session.stickers.length : ℤ) →
        ((handleDeleteLayer op).session.stickers.length : ℤ)
          = (op.session.stickers.length : ℤ) - 1) := by
  refine ⟨?_, ?_, ?_, ?_, ?_⟩
  · intro env measure st d hkind hinv
    cases d with
    | true => simp [selectionOverlay]
    | false =>
      rw [selectionOverlay, if_neg Bool.false_ne_true, if_pos hkind]
      by_cases hneg : st.selectedLayerIndex ≠ -1
      · rw [if_pos hneg, jsIndex_eq_none st.photos st.selectedLayerIndex hinv]
      · rw [if_neg hneg]
  · intro env measure st d hkind hinv
    cases d with
    | true => simp [selectionOverlay]
    | false =>
      have hnp : ¬(st.selectedLayerKind = .photo) := by rw [hkind]; simp
      rw [selectionOverlay, if_neg Bool.false_ne_true, if_neg hnp]
      by_cases hneg : st.selectedLayerIndex ≠ -1
      · rw [if_pos hneg]
        simp only [hkind]
        rw [jsIndex_eq_none st.stickers st.selectedLayerIndex hinv]
      · rw [if_neg hneg]
  · intro env measure st d hkind hinv
    cases d with
    | true => simp [selectionOverlay]
    | false =>
      have hnp : ¬(st.selectedLayerKind = .photo) := by rw [hkind]; simp
      rw [selectionOverlay, if_neg Bool.false_ne_true, if_neg hnp]
      by_cases hneg : st.selectedLayerIndex ≠ -1
      · rw [if_pos hneg]
        simp only [hkind]
        rw [jsIndex_eq_none st.textLayers st.selectedLayerIndex hinv]
      · rw [if_neg hneg]
  · intro op
    simp [handleDeleteLayer]
  · intro op hkind h0 h1
    simp only [handleDeleteLayer, if_pos hkind]
    exact removeAt_length op.session.stickers op.selectedLayerIndex h0 h1

/-- C6 witness: a stale sticker selection (index 5 of a 1-element array)
renders no overlay, and deleting the selected sticker of a 1-element
session resets the selection and empties the array. -/
theorem invalid_selection_renders_no_overlay_witness :
    staleSelectionState.selectedLayerKind = .sticker
    ∧ ((staleSelectionState.stickers.length : ℤ) ≤ staleSelectionState.selectedLayerIndex)
    ∧ selectionOverlay sampleEnv constMeasure staleSelectionState false = none
    ∧ (handleDeleteLayer sampleOpState).selectedLayerIndex = -1
    ∧ ((handleDeleteLayer sampleOpState).session.stickers.length : ℤ)
        = (sampleOpState.session.stickers.length : ℤ) - 1 := by
  have hinv : staleSelectionState.selectedLayerIndex < 0
      ∨ ((staleSelectionState.stickers.length : ℤ) ≤ staleSelectionState.selectedLayerIndex) := by
    right
    simp [staleSelectionState]
  refine ⟨rfl, ?_, ?_, ?_, ?_⟩
  · simp [staleSelectionState]
  · exact invalid_selection_renders_no_overlay.2.1 sampleEnv constMeasure
      staleSelectionState false rfl hinv
  · exact invalid_selection_renders_no_overlay.2.2.2.1 sampleOpState
  · exact invalid_selection_renders_no_overlay.2.2.2.2 sampleOpState rfl
      (by simp [sampleOpState]) (by simp [sampleOpState])

end Photobooth
